import Mathlib

/-!
Shallow embedding of the driverlib backend abstraction and transport layer
(`src/driverlib`): the value-to-boolean coercion, the backend registry, the
pyvisa transport backend with its scoped connection discipline, the logging
backend, the driver base operations, and the attribute guard.

Python dynamic values are embedded as the inductive `PyValue`, Python
exceptions as the inductive `PyError` carried in `Except`, and side effects
(device I/O, logging) as explicit event traces.
-/

namespace Driverlib

/-- Embedding of the Python exceptions the library raises: `ValueError`
(from `VisaDriver._value_to_bool`), `TypeError` (from
`LimitedAttributeSetter.__setattr__`) and transport-layer failures
(pyvisa errors), each carrying its message. -/
inductive PyError
  | valueError (msg : String)
  | typeError (msg : String)
  | transportError (msg : String)
deriving DecidableEq, Repr

/-- Embedding of the Python dynamic values that can reach
`VisaDriver._value_to_bool`: booleans, strings, integers, and
representatives of every other type (floats, None). In Python `bool` is a
subclass of `int`, but `_value_to_bool` tests `isinstance(value, bool)`
first, so the two constructors are disjoint here exactly as the branches
are in the code. -/
inductive PyValue
  | pybool (b : Bool)
  | pystr (s : String)
  | pyint (n : Int)
  | pyfloat
  | pynone
deriving DecidableEq, Repr

/-- Embedding of Python `str.lower()` as a computable map over the
string's characters (`Char.toLower` lower-cases exactly the ASCII
letters, as `.lower()` does on the ASCII command strings used here). -/
def pyLower (s : String) : String :=
  ⟨s.data.map Char.toLower⟩

/-- Embedding of Python `str.strip()`: removes leading and trailing
whitespace, as a computable map over the string's characters. -/
def pyTrim (s : String) : String :=
  ⟨((s.data.dropWhile Char.isWhitespace).reverse.dropWhile Char.isWhitespace).reverse⟩

/-- Embedding of `VisaDriver._value_to_bool` (src/driverlib/visa_driver.py).
The branch structure mirrors the Python `isinstance` chain: bool first,
then str (compared after `.lower()`), then int, then the final raise. -/
def value_to_bool : PyValue → Except PyError Bool
  | PyValue.pybool b => Except.ok b
  | PyValue.pystr s =>
      if pyLower s = "on" then Except.ok true
      else if pyLower s = "off" then Except.ok false
      else Except.error (PyError.valueError
        "Invalid value to convert to bool. Must be \x27ON\x27 or \x27OFF\x27")
  | PyValue.pyint n =>
      if n = 0 then Except.ok false
      else if n = 1 then Except.ok true
      else Except.error (PyError.valueError
        "Invalid value to convert to bool. Must be 0 or 1")
  | PyValue.pyfloat => Except.error (PyError.valueError
      "Invalid value to convert to bool. Must be int, bool or str (\x27ON\x27 or \x27OFF\x27)")
  | PyValue.pynone => Except.error (PyError.valueError
      "Invalid value to convert to bool. Must be int, bool or str (\x27ON\x27 or \x27OFF\x27)")

/-- The backend types that can sit in the registry: the real transport
backend (`PyVisaBackend`), the logging backend (`LoggerBackend`), and
arbitrary further implementations of the backend protocol (test doubles). -/
inductive BackendType
  | pyvisa
  | loggerB
  | custom (n : Nat)
deriving DecidableEq, Repr

/-- Embedding of `get_backend` (src/driverlib/_backend_manager.py): the
module-level slot `visa_backend` is the explicit `Option BackendType`
state; when it is unset the function stores and returns `PyVisaBackend`. -/
def get_backend : Option BackendType → BackendType × Option BackendType
  | none => (BackendType.pyvisa, some BackendType.pyvisa)
  | some b => (b, some b)

/-- Embedding of `set_backend` (src/driverlib/_backend_manager.py):
overwrites the module-level slot. -/
def set_backend (b : BackendType) (_ : Option BackendType) : Option BackendType :=
  some b

/-- Runs `n` consecutive `get_backend` calls from a given registry state,
collecting the returned backend types. -/
def run_gets : Nat → Option BackendType → List BackendType × Option BackendType
  | 0, s => ([], s)
  | n + 1, s =>
      let r := get_backend s
      let rest := run_gets n r.2
      (r.1 :: rest.1, rest.2)

/-- Numeric value of `logging.DEBUG`. -/
def DEBUG : Nat := 10

/-- Numeric value of `logging.INFO` (the level the library sets on its
default loggers). -/
def INFO : Nat := 20

/-- Observable effects of a backend call: device I/O performed through a
scoped connection (open / close / write / query / read) and calls to the
logger (`logged lvl msg` records a `logger.log(lvl, msg)`-style call with
the format arguments already substituted). -/
inductive Event
  | openedConn
  | closedConn
  | openFailed
  | devWrite (message : String)
  | devQuery (message : String)
  | devRead
  | logged (lvl : Nat) (message : String)
deriving DecidableEq, Repr

/-- True for events that are device I/O (connection traffic), false for
pure logging. -/
def Event.isDevEvent : Event → Bool
  | Event.logged _ _ => false
  | _ => true

/-- Number of `closedConn` events in a trace: how many times the
connection handle of the scope was closed. -/
def closeCount : List Event → Nat
  | [] => 0
  | Event.closedConn :: rest => closeCount rest + 1
  | _ :: rest => closeCount rest

/-- Number of `openedConn` events in a trace. -/
def openCount : List Event → Nat
  | [] => 0
  | Event.openedConn :: rest => openCount rest + 1
  | _ :: rest => openCount rest

/-- Behaviour of the physical device / pyvisa resource behind one resource
location: whether `rm.open_resource` succeeds, and the outcome of the raw
`resource.write` / `resource.query` / `resource.read` calls. `queryRes` and
`readRes` return the raw, untrimmed device reply. -/
structure Device where
  openOk : Bool
  writeRes : String → Except PyError Unit
  queryRes : String → Except PyError String
  readRes : Except PyError String

/-- Embedding of `with OpenResource(...) as resource: body`
(src/driverlib/visa/backends/pyvisa_backend.py, `OpenResource`):
`__enter__` opens the resource (which can fail, in which case no handle
exists and no body runs) and `__exit__` closes the handle exactly once on
scope exit, whether the body returned normally or raised; the body's
outcome — value or exception — passes through unchanged. -/
def withOpenResource (dev : Device) (body : Except PyError α × List Event) :
    Except PyError α × List Event :=
  if dev.openOk then
    (body.1, Event.openedConn :: body.2 ++ [Event.closedConn])
  else
    (Except.error (PyError.transportError "open failed"), [Event.openFailed])

/-- Embedding of `PyVisaBackend.write`. -/
def pyvisaWrite (dev : Device) (message : String) : Except PyError Unit × List Event :=
  withOpenResource dev (dev.writeRes message, [Event.devWrite message])

/-- Embedding of `PyVisaBackend.query`: the raw device reply is stripped
(`.strip()` in Python, `String.trim` here) before being returned. -/
def pyvisaQuery (dev : Device) (message : String) : Except PyError String × List Event :=
  withOpenResource dev (Except.map pyTrim (dev.queryRes message), [Event.devQuery message])

/-- Embedding of `PyVisaBackend.read`: the raw device reply is stripped. -/
def pyvisaRead (dev : Device) : Except PyError String × List Event :=
  withOpenResource dev (Except.map pyTrim dev.readRes, [Event.devRead])

/-- Embedding of `PyVisaBackend.write_and_read`: inside one scope, write
then read, stripping the reply; if the write raises, the read never runs. -/
def pyvisaWriteAndRead (dev : Device) (message : String) : Except PyError String × List Event :=
  withOpenResource dev
    (match dev.writeRes message with
     | Except.ok _ => (Except.map pyTrim dev.readRes, [Event.devWrite message, Event.devRead])
     | Except.error e => (Except.error e, [Event.devWrite message]))

/-- Configuration state a `PyVisaBackend` instance holds after `__init__`
(resource manager handle omitted: it carries no observable state here). -/
structure PyVisaBackendState where
  endline : String
  resource_location : String
  loggerLevel : Nat
deriving DecidableEq, Repr

/-- Embedding of `PyVisaBackend.__init__`: after storing the
configuration, if `check` is set it runs `self.query("*IDN?")` and passes
the result to `logger.info`; otherwise, if the logger's level is at most
`DEBUG`, it runs the same query and passes the result to `logger.debug`.
A failing query propagates out of the constructor. `loggerLevel` is the
level of the supplied logger (when the caller supplies none, the code
creates one at `INFO`). -/
def pyvisaInit (resource_location endline : String) (check : Bool) (loggerLevel : Nat)
    (dev : Device) : Except PyError PyVisaBackendState × List Event :=
  let st : PyVisaBackendState :=
    { endline := endline, resource_location := resource_location, loggerLevel := loggerLevel }
  if check then
    match pyvisaQuery dev "*IDN?" with
    | (Except.ok s, evs) => (Except.ok st, evs ++ [Event.logged INFO ("Connected to " ++ s)])
    | (Except.error e, evs) => (Except.error e, evs)
  else if loggerLevel ≤ DEBUG then
    match pyvisaQuery dev "*IDN?" with
    | (Except.ok s, evs) => (Except.ok st, evs ++ [Event.logged DEBUG ("Connected to " ++ s)])
    | (Except.error e, evs) => (Except.error e, evs)
  else
    (Except.ok st, [])

/-- A backend instance, as seen through the backend protocol
(src/driverlib/visa/backends/backend_protocol.py): its registry type, an
instance identity, and the behaviour of its four transport operations and
of `close`. -/
structure Backend where
  btype : BackendType
  instId : Nat
  writeFn : String → Except PyError Unit × List Event
  queryFn : String → Except PyError String × List Event
  readFn : Except PyError String × List Event
  closeFn : Except PyError Unit × List Event

/-- Embedding of a constructed `LoggerBackend`
(src/driverlib/visa/backends/logger_backend.py): every operation succeeds,
performs no device I/O, logs at `INFO`, and the reading operations return
the placeholder text "0". -/
def mkLoggerBackend (instId : Nat) : Backend :=
  { btype := BackendType.loggerB
    instId := instId
    writeFn := fun m => (Except.ok (), [Event.logged INFO ("Write: " ++ m ++ ".")])
    queryFn := fun m => (Except.ok "0", [Event.logged INFO ("Query: " ++ m ++ ".")])
    readFn := (Except.ok "0", [Event.logged INFO "Read."])
    closeFn := (Except.ok (), [Event.logged INFO "Close."]) }

/-- Embedding of a constructed `PyVisaBackend` talking to `dev`. -/
def mkPyVisaBackend (instId : Nat) (dev : Device) : Backend :=
  { btype := BackendType.pyvisa
    instId := instId
    writeFn := pyvisaWrite dev
    queryFn := pyvisaQuery dev
    readFn := pyvisaRead dev
    closeFn := (Except.ok (), []) }

/-- A custom backend-protocol implementation (test double, sanctioned by
the backend registry accepting any protocol implementer): it answers each
operation with the canned device responses verbatim, with no trimming and
no logging. -/
def mkCustomBackend (n instId : Nat) (dev : Device) : Backend :=
  { btype := BackendType.custom n
    instId := instId
    writeFn := fun m => (dev.writeRes m, [])
    queryFn := fun m => (dev.queryRes m, [])
    readFn := (dev.readRes, [])
    closeFn := (Except.ok (), []) }

/-- Instantiates the backend type held in the registry, as
`get_backend()(resource_location, endline, check=check, logger=logger)`
does in `VisaDriver.__init__`. -/
def instantiateBackend : BackendType → Nat → Device → Backend
  | BackendType.pyvisa, instId, dev => mkPyVisaBackend instId dev
  | BackendType.loggerB, instId, _ => mkLoggerBackend instId
  | BackendType.custom n, instId, dev => mkCustomBackend n instId dev

/-- Embedding of a `VisaDriver` instance (src/driverlib/visa_driver.py):
it owns the backend instance bound in `__init__` and its logger. -/
structure VisaDriver where
  backend : Backend
  loggerLevel : Nat

/-- Embedding of `VisaDriver.__init__`: resolves the backend type through
the registry (threading the registry state) and instantiates it once,
binding the instance to the driver. -/
def mkVisaDriver (reg : Option BackendType) (instId : Nat) (dev : Device) :
    VisaDriver × Option BackendType :=
  let r := get_backend reg
  ({ backend := instantiateBackend r.1 instId dev, loggerLevel := INFO }, r.2)

/-- Embedding of `VisaDriver.write`: delegates to the bound backend. The
first argument models the ambient module-level registry state, which the
method never consults. -/
def VisaDriver.write (d : VisaDriver) (_reg : Option BackendType) (message : String) :
    Except PyError Unit × List Event :=
  d.backend.writeFn message

/-- Embedding of `VisaDriver.ask`: returns `self.backend.query(message)`
unchanged (no stripping at the driver layer). -/
def VisaDriver.ask (d : VisaDriver) (_reg : Option BackendType) (message : String) :
    Except PyError String × List Event :=
  d.backend.queryFn message

/-- Embedding of `VisaDriver.read`: delegates to the bound backend's read
and strips the returned text. -/
def VisaDriver.read (d : VisaDriver) (_reg : Option BackendType) :
    Except PyError String × List Event :=
  let r := d.backend.readFn
  (Except.map pyTrim r.1, r.2)

/-- Embedding of `VisaDriver.write_and_read`: backend write, then backend
read, returning the read result unchanged; a raising write skips the read. -/
def VisaDriver.write_and_read (d : VisaDriver) (_reg : Option BackendType) (message : String) :
    Except PyError String × List Event :=
  match d.backend.writeFn message with
  | (Except.ok _, evs) =>
      let r := d.backend.readFn
      (r.1, evs ++ r.2)
  | (Except.error e, evs) => (Except.error e, evs)

/-- Embedding of `VisaDriver.close`: delegates to the bound backend. -/
def VisaDriver.close (d : VisaDriver) (_reg : Option BackendType) :
    Except PyError Unit × List Event :=
  d.backend.closeFn

/-- Embedding of the `VisaDriver.idn` property: `self.ask("*IDN?")`. -/
def VisaDriver.idn (d : VisaDriver) (reg : Option BackendType) :
    Except PyError String × List Event :=
  d.ask reg "*IDN?"

/-- Embedding of `VisaDriver.get_error`: `self.ask("SYST:ERR?")`. -/
def VisaDriver.get_error (d : VisaDriver) (reg : Option BackendType) :
    Except PyError String × List Event :=
  d.ask reg "SYST:ERR?"

/-- Embedding of `VisaDriver.reset`: `self.write("*RST")` then
`self.write("*WAI")`; a raising first write skips the second. -/
def VisaDriver.reset (d : VisaDriver) (reg : Option BackendType) :
    Except PyError Unit × List Event :=
  match d.write reg "*RST" with
  | (Except.ok _, evs) =>
      let r := d.write reg "*WAI"
      (r.1, evs ++ r.2)
  | (Except.error e, evs) => (Except.error e, evs)

/-- Embedding of `VisaDriver.clear`: `self.write("*CLS")` then
`self.write("*WAI")`. -/
def VisaDriver.clear (d : VisaDriver) (reg : Option BackendType) :
    Except PyError Unit × List Event :=
  match d.write reg "*CLS" with
  | (Except.ok _, evs) =>
      let r := d.write reg "*WAI"
      (r.1, evs ++ r.2)
  | (Except.error e, evs) => (Except.error e, evs)

/-- The public driver operations, for reasoning about arbitrary call
sequences. -/
inductive DriverOp
  | writeO (message : String)
  | askO (message : String)
  | readO
  | writeAndReadO (message : String)
  | closeO
  | idnO
  | getErrorO
  | resetO
  | clearO
deriving DecidableEq, Repr

/-- Runs one driver operation, uniformising the result type (`none` for
operations that return nothing). -/
def runDriverOp (d : VisaDriver) (reg : Option BackendType) :
    DriverOp → Except PyError (Option String) × List Event
  | DriverOp.writeO m => let r := d.write reg m; (Except.map (fun _ => none) r.1, r.2)
  | DriverOp.askO m => let r := d.ask reg m; (Except.map some r.1, r.2)
  | DriverOp.readO => let r := d.read reg; (Except.map some r.1, r.2)
  | DriverOp.writeAndReadO m => let r := d.write_and_read reg m; (Except.map some r.1, r.2)
  | DriverOp.closeO => let r := d.close reg; (Except.map (fun _ => none) r.1, r.2)
  | DriverOp.idnO => let r := d.idn reg; (Except.map some r.1, r.2)
  | DriverOp.getErrorO => let r := d.get_error reg; (Except.map some r.1, r.2)
  | DriverOp.resetO => let r := d.reset reg; (Except.map (fun _ => none) r.1, r.2)
  | DriverOp.clearO => let r := d.clear reg; (Except.map (fun _ => none) r.1, r.2)

/-- Runs a sequence of driver operations. The backends in this development
are stateless between calls (the logging backend keeps no state at all, and
the transport backend opens a fresh connection per call), so a sequence is
the list of its independent calls. -/
def runDriverOps (d : VisaDriver) (reg : Option BackendType) (ops : List DriverOp) :
    List (Except PyError (Option String) × List Event) :=
  ops.map (runDriverOp d reg)

/-- True when an `Except` result is a normal return (no exception). -/
def exceptOk : Except PyError α → Bool
  | Except.ok _ => true
  | Except.error _ => false

/-- Embedding of an instance carrying `LimitedAttributeSetter`
(src/driverlib/utils.py): its instance `__dict__` (newest binding first),
the names its class provides (methods and class attributes, consulted by
`hasattr`), and the class-level `_allow_attrs` list when the class declares
one (`none` when it does not, making `hasattr(self, "_allow_attrs")`
false). -/
structure GuardedInstance where
  instAttrs : List (String × PyValue)
  classAttrs : List String
  allowAttrs : Option (List String)

/-- Embedding of Python `hasattr(self, n)`: the name is found in the
instance `__dict__` or on the class. -/
def hasattrI (g : GuardedInstance) (n : String) : Bool :=
  g.instAttrs.any (fun p => p.1 == n) || g.classAttrs.contains n

/-- True when the class declares `_allow_attrs` and `n` is in it. -/
def inAllowList (g : GuardedInstance) (n : String) : Bool :=
  match g.allowAttrs with
  | some l => l.contains n
  | none => false

/-- The guard's admission test, exactly the condition of
`LimitedAttributeSetter.__setattr__`. -/
def canSet (g : GuardedInstance) (n : String) : Bool :=
  hasattrI g n || inAllowList g n

/-- Embedding of `LimitedAttributeSetter.__setattr__`: admitted writes go
to the instance `__dict__`; rejected writes raise a `TypeError` naming the
offending attribute. -/
def setattrG (g : GuardedInstance) (n : String) (v : PyValue) :
    Except PyError GuardedInstance :=
  if canSet g n then
    Except.ok { g with instAttrs := (n, v) :: g.instAttrs }
  else
    Except.error (PyError.typeError ("There is no such attribute \x27" ++ n ++ "\x27"))

/-- Embedding of attribute read on the instance: the newest instance
binding wins (instance `__dict__` shadows the class). -/
def getattrG (g : GuardedInstance) (n : String) : Option PyValue :=
  (g.instAttrs.find? (fun p => p.1 == n)).map Prod.snd

/-- Applies a sequence of attribute assignments, stopping at the first
rejected one. -/
def applyAssigns (g : GuardedInstance) : List (String × PyValue) → Except PyError GuardedInstance
  | [] => Except.ok g
  | (n, v) :: rest =>
      match setattrG g n v with
      | Except.ok g2 => applyAssigns g2 rest
      | Except.error e => Except.error e

/-- Device whose opens and reads all succeed, replying with padded text. -/
def devAllOk : Device :=
  { openOk := true
    writeRes := fun _ => Except.ok ()
    queryRes := fun _ => Except.ok " X1 "
    readRes := Except.ok " R " }

/-- Device whose connection opens but whose every transfer raises. -/
def devFailing : Device :=
  { openOk := true
    writeRes := fun _ => Except.error (PyError.transportError "boom")
    queryRes := fun _ => Except.error (PyError.transportError "boom")
    readRes := Except.error (PyError.transportError "boom") }

theorem run_gets_some (n : Nat) (b : BackendType) :
    run_gets n (some b) = (List.replicate n b, some b) := by
  induction n with
  | zero => rfl
  | succ n ih => simp [run_gets, get_backend, ih, List.replicate]

theorem instantiateBackend_btype (b : BackendType) (instId : Nat) (dev : Device) :
    (instantiateBackend b instId dev).btype = b := by
  cases b <;> rfl

/-- Claim C1: for every transport-backend operation (write, query, read,
write_and_read), once the connection handle is opened at the start of the
scope it is closed exactly once before the operation returns, whatever the
outcome (success or exception) of the enclosed device calls, which range
over all behaviours through `dev`. -/
theorem pyvisa_scoped_close (dev : Device) (message : String) (h : dev.openOk = true) :
    (openCount (pyvisaWrite dev message).2 = 1 ∧ closeCount (pyvisaWrite dev message).2 = 1) ∧
    (openCount (pyvisaQuery dev message).2 = 1 ∧ closeCount (pyvisaQuery dev message).2 = 1) ∧
    (openCount (pyvisaRead dev).2 = 1 ∧ closeCount (pyvisaRead dev).2 = 1) ∧
    (openCount (pyvisaWriteAndRead dev message).2 = 1 ∧
      closeCount (pyvisaWriteAndRead dev message).2 = 1) := by
  refine ⟨⟨?_, ?_⟩, ⟨?_, ?_⟩, ⟨?_, ?_⟩, ?_, ?_⟩ <;>
    first
      | (simp only [pyvisaWrite, pyvisaQuery, pyvisaRead, withOpenResource, h, if_true]; rfl)
      | (cases hw : dev.writeRes message <;>
          simp only [pyvisaWriteAndRead, withOpenResource, h, if_true, hw] <;> rfl)

/-- Claim C1 witness: a connection-opening device whose transfers succeed and one
whose transfers raise both see exactly one close per operation. -/
theorem pyvisa_scoped_close_witness :
    closeCount (pyvisaWrite devAllOk "CMD").2 = 1 ∧
    closeCount (pyvisaWriteAndRead devFailing "CMD").2 = 1 :=
  ⟨(pyvisa_scoped_close devAllOk "CMD" rfl).1.2,
   (pyvisa_scoped_close devFailing "CMD" rfl).2.2.2.2⟩

/-- Claim C2: `_value_to_bool` maps True/False to themselves, strings whose
lower-casing is "on"/"off" to True/False, integers 1/0 to True/False, and
raises ValueError on every other string, every other integer, and every
value of any other type (floats, None). -/
theorem value_to_bool_correct :
    (∀ b : Bool, value_to_bool (PyValue.pybool b) = Except.ok b) ∧
    (∀ s : String, pyLower s = "on" → value_to_bool (PyValue.pystr s) = Except.ok true) ∧
    (∀ s : String, pyLower s = "off" → value_to_bool (PyValue.pystr s) = Except.ok false) ∧
    value_to_bool (PyValue.pyint 1) = Except.ok true ∧
    value_to_bool (PyValue.pyint 0) = Except.ok false ∧
    (∀ s : String, pyLower s ≠ "on" → pyLower s ≠ "off" →
      ∃ m, value_to_bool (PyValue.pystr s) = Except.error (PyError.valueError m)) ∧
    (∀ i : Int, i ≠ 0 → i ≠ 1 →
      ∃ m, value_to_bool (PyValue.pyint i) = Except.error (PyError.valueError m)) ∧
    (∃ m, value_to_bool PyValue.pyfloat = Except.error (PyError.valueError m)) ∧
    (∃ m, value_to_bool PyValue.pynone = Except.error (PyError.valueError m)) := by
  refine ⟨fun b => rfl, ?_, ?_, rfl, rfl, ?_, ?_, ⟨_, rfl⟩, ⟨_, rfl⟩⟩
  · intro s hs
    simp [value_to_bool, hs]
  · intro s hs
    simp [value_to_bool, hs]
  · intro s h1 h2
    exact ⟨"Invalid value to convert to bool. Must be \x27ON\x27 or \x27OFF\x27",
      by simp [value_to_bool, h1, h2]⟩
  · intro i h1 h2
    exact ⟨"Invalid value to convert to bool. Must be 0 or 1",
      by simp [value_to_bool, h1, h2]⟩

/-- Claim C2 witness: evaluation on the spec's sample inputs, through the claim
theorem. -/
theorem value_to_bool_correct_witness :
    value_to_bool (PyValue.pystr "ON") = Except.ok true ∧
    value_to_bool (PyValue.pystr "off") = Except.ok false ∧
    (∃ m, value_to_bool (PyValue.pystr "maybe") = Except.error (PyError.valueError m)) ∧
    (∃ m, value_to_bool (PyValue.pyint 2) = Except.error (PyError.valueError m)) :=
  ⟨value_to_bool_correct.2.1 "ON" (by decide),
   value_to_bool_correct.2.2.1 "off" (by decide),
   value_to_bool_correct.2.2.2.2.2.1 "maybe" (by decide) (by decide),
   value_to_bool_correct.2.2.2.2.2.2.1 2 (by decide) (by decide)⟩

/-- Claim C3: with no backend selected, `get_backend` returns the pyvisa
transport backend type and caches it, every later `get_backend` returns
that same cached type, and after `set_backend b` every later `get_backend`
— and hence every driver constructed afterwards — uses `b`. -/
theorem get_backend_caching :
    get_backend none = (BackendType.pyvisa, some BackendType.pyvisa) ∧
    (∀ n : Nat, run_gets n (get_backend none).2 =
      (List.replicate n BackendType.pyvisa, some BackendType.pyvisa)) ∧
    (∀ (b : BackendType) (s : Option BackendType) (n : Nat),
      run_gets n (set_backend b s) = (List.replicate n b, some b)) ∧
    (∀ (b : BackendType) (s : Option BackendType) (instId : Nat) (dev : Device),
      (mkVisaDriver (set_backend b s) instId dev).1.backend.btype = b) := by
  refine ⟨rfl, ?_, ?_, ?_⟩
  · intro n
    exact run_gets_some n _
  · intro b s n
    exact run_gets_some n b
  · intro b s instId dev
    exact instantiateBackend_btype b instId dev

/-- Claim C4: a driver resolves its backend type from the registry exactly once,
at construction; every driver operation acts only on the bound backend
instance and ignores the ambient registry state, so a later `set_backend`
changes which backend newly constructed drivers use but never the backend
of an existing driver. -/
theorem driver_backend_fixed_at_construction (reg r1 r2 : Option BackendType)
    (instId instId2 : Nat) (dev dev2 : Device) (b2 : BackendType) (message : String) :
    (mkVisaDriver reg instId dev).1.backend = instantiateBackend (get_backend reg).1 instId dev ∧
    (mkVisaDriver reg instId dev).1.backend.btype = (get_backend reg).1 ∧
    (∀ d : VisaDriver,
      d.write r1 message = d.backend.writeFn message ∧
      d.ask r1 message = d.backend.queryFn message ∧
      d.read r1 = (Except.map pyTrim d.backend.readFn.1, d.backend.readFn.2) ∧
      d.close r1 = d.backend.closeFn ∧
      d.idn r1 = d.backend.queryFn "*IDN?" ∧
      d.get_error r1 = d.backend.queryFn "SYST:ERR?") ∧
    (∀ d : VisaDriver,
      d.write r1 message = d.write r2 message ∧
      d.ask r1 message = d.ask r2 message ∧
      d.read r1 = d.read r2 ∧
      d.write_and_read r1 message = d.write_and_read r2 message ∧
      d.close r1 = d.close r2 ∧
      d.idn r1 = d.idn r2 ∧
      d.get_error r1 = d.get_error r2 ∧
      d.reset r1 = d.reset r2 ∧
      d.clear r1 = d.clear r2) ∧
    (mkVisaDriver (set_backend b2 (mkVisaDriver reg instId dev).2) instId2 dev2).1.backend.btype
      = b2 := by
  refine ⟨rfl, instantiateBackend_btype _ instId dev, fun d => ⟨rfl, rfl, rfl, rfl, rfl, rfl⟩,
    fun d => ⟨rfl, rfl, rfl, rfl, rfl, rfl, rfl, rfl, rfl⟩, instantiateBackend_btype b2 instId2 dev2⟩

/-- Claim C6: a driver constructed with the logging backend selected never sees
an exception from any operation of any call sequence; its write only logs
the message, and ask / read / write_and_read all return the placeholder
"0". -/
theorem logger_driver_total (s reg : Option BackendType) (instId : Nat) (dev : Device)
    (ops : List DriverOp) (message : String) :
    (∀ r ∈ runDriverOps (mkVisaDriver (set_backend BackendType.loggerB s) instId dev).1 reg ops,
      exceptOk r.1 = true ∧ ∀ ev ∈ r.2, ev.isDevEvent = false) ∧
    (mkVisaDriver (set_backend BackendType.loggerB s) instId dev).1.write reg message =
      (Except.ok (), [Event.logged INFO ("Write: " ++ message ++ ".")]) ∧
    ((mkVisaDriver (set_backend BackendType.loggerB s) instId dev).1.ask reg message).1 =
      Except.ok "0" ∧
    ((mkVisaDriver (set_backend BackendType.loggerB s) instId dev).1.read reg).1 =
      Except.ok "0" ∧
    ((mkVisaDriver (set_backend BackendType.loggerB s) instId dev).1.write_and_read
        reg message).1 = Except.ok "0" := by
  refine ⟨?_, rfl, rfl, ?_, rfl⟩
  · intro r hr
    rcases List.mem_map.mp hr with ⟨op, _, rfl⟩
    cases op <;>
      simp [runDriverOp, VisaDriver.write, VisaDriver.ask, VisaDriver.read,
        VisaDriver.write_and_read, VisaDriver.close, VisaDriver.idn, VisaDriver.get_error,
        VisaDriver.reset, VisaDriver.clear, mkVisaDriver, set_backend, get_backend,
        instantiateBackend, mkLoggerBackend, exceptOk, Event.isDevEvent, Except.map]
  · show (Except.map pyTrim (Except.ok "0"), _).1 = Except.ok "0"
    rfl

/-- Claim C6 witness: on a concrete logger-backed driver, a sample sequence has
only successful results and `ask` answers "0". -/
theorem logger_driver_total_witness :
    exceptOk (runDriverOp (mkVisaDriver (set_backend BackendType.loggerB none) 0 devAllOk).1
      none (DriverOp.askO "OUTP?")).1 = true ∧
    ((mkVisaDriver (set_backend BackendType.loggerB none) 0 devAllOk).1.ask
      none "OUTP?").1 = Except.ok "0" :=
  ⟨((logger_driver_total none none 0 devAllOk [DriverOp.askO "OUTP?"] "OUTP?").1
      (runDriverOp (mkVisaDriver (set_backend BackendType.loggerB none) 0 devAllOk).1
        none (DriverOp.askO "OUTP?"))
      (by simp [runDriverOps])).1,
   (logger_driver_total none none 0 devAllOk [] "OUTP?").2.2.1⟩

/-- Device whose query replies are padded with whitespace that a
protocol-conformant test double passes through verbatim. -/
def devUntrimmed : Device :=
  { openOk := true
    writeRes := fun _ => Except.ok ()
    queryRes := fun _ => Except.ok " 0 "
    readRes := Except.ok " 0 " }

/-- Claim C7 counterexample: with a backend whose query returns text carrying
surrounding whitespace, the driver's ask returns that text unchanged, not
its trimmed form — so ask does not trim for every backend. -/
theorem ask_trim_counterexample :
    ¬ (((VisaDriver.mk (mkCustomBackend 0 0 devUntrimmed) INFO).ask none "OUTP?").1 =
        Except.map pyTrim ((mkCustomBackend 0 0 devUntrimmed).queryFn "OUTP?").1) := by
  intro h
  simp [VisaDriver.ask, mkCustomBackend, devUntrimmed, Except.map] at h
  exact absurd (congrArg String.data h) (by decide)

/-- Claim C7 amended: ask returns the backend's query response unchanged (no
trimming at the driver layer); since the repository's transport backend
itself trims the raw device reply inside query, ask on a
transport-backed driver does return the trimmed device reply. -/
theorem ask_returns_query_verbatim (b : Backend) (lvl : Nat) (reg : Option BackendType)
    (message : String) :
    (VisaDriver.mk b lvl).ask reg message = b.queryFn message ∧
    (∀ (dev : Device) (instId : Nat) (raw : String),
      dev.openOk = true → dev.queryRes message = Except.ok raw →
      ((VisaDriver.mk (mkPyVisaBackend instId dev) lvl).ask reg message).1 =
        Except.ok (pyTrim raw)) := by
  refine ⟨rfl, ?_⟩
  intro dev instId raw ho hq
  simp [VisaDriver.ask, mkPyVisaBackend, pyvisaQuery, withOpenResource, ho, hq, Except.map]

/-- Claim C7 amended witness: a transport-backed driver's ask returns the
trimmed reply of a concrete device. -/
theorem ask_returns_query_verbatim_witness :
    ((VisaDriver.mk (mkPyVisaBackend 0 devAllOk) INFO).ask none "OUTP?").1 =
      Except.ok (pyTrim " X1 ") :=
  (ask_returns_query_verbatim (mkPyVisaBackend 0 devAllOk) INFO none "OUTP?").2
    devAllOk 0 " X1 " rfl rfl

/-- Claim C8: constructed with the check flag set, the transport backend runs an
identification query inside the constructor and hands the result to
`logger.info`; when the query raises, the exception propagates out of the
constructor. -/
theorem pyvisa_init_check_flag (loc endl : String) (lvl : Nat) (dev : Device) :
    (∀ s : String, dev.openOk = true → dev.queryRes "*IDN?" = Except.ok s →
      pyvisaInit loc endl true lvl dev =
        (Except.ok { endline := endl, resource_location := loc, loggerLevel := lvl },
         [Event.openedConn, Event.devQuery "*IDN?", Event.closedConn,
          Event.logged INFO ("Connected to " ++ pyTrim s)])) ∧
    (∀ e : PyError, (pyvisaQuery dev "*IDN?").1 = Except.error e →
      (pyvisaInit loc endl true lvl dev).1 = Except.error e) := by
  constructor
  · intro s ho hq
    simp [pyvisaInit, pyvisaQuery, withOpenResource, ho, hq, Except.map]
  · intro e hq
    rcases h2 : pyvisaQuery dev "*IDN?" with ⟨r, evs⟩
    rw [h2] at hq
    cases r with
    | ok s => exact absurd hq (by simp)
    | error e2 =>
        cases hq
        simp [pyvisaInit, h2]

/-- Claim C8 witness: on a concrete reachable device the constructor succeeds and
logs the trimmed identification; on a concrete raising device the
exception escapes the constructor. -/
theorem pyvisa_init_check_flag_witness :
    pyvisaInit "GPIB0" "" true 20 devAllOk =
      (Except.ok { endline := "", resource_location := "GPIB0", loggerLevel := 20 },
       [Event.openedConn, Event.devQuery "*IDN?", Event.closedConn,
        Event.logged INFO ("Connected to " ++ pyTrim " X1 ")]) ∧
    (pyvisaInit "GPIB0" "" true 20 devFailing).1 =
      Except.error (PyError.transportError "boom") :=
  ⟨(pyvisa_init_check_flag "GPIB0" "" 20 devAllOk).1 " X1 " rfl rfl,
   (pyvisa_init_check_flag "GPIB0" "" 20 devFailing).2 (PyError.transportError "boom") rfl⟩

/-- Claim C9: with the check flag unset, the constructor still performs the
identification query whenever the supplied logger's level is at most
DEBUG; it touches the device at all only when check is set or the level is
at most DEBUG, and otherwise returns with an empty trace. -/
theorem pyvisa_init_debug_level (loc endl : String) (lvl : Nat) (dev : Device) :
    (lvl ≤ DEBUG → dev.openOk = true →
      Event.devQuery "*IDN?" ∈ (pyvisaInit loc endl false lvl dev).2) ∧
    (lvl ≤ DEBUG → (pyvisaInit loc endl false lvl dev).2 ≠ []) ∧
    (DEBUG < lvl →
      pyvisaInit loc endl false lvl dev =
        (Except.ok { endline := endl, resource_location := loc, loggerLevel := lvl }, [])) ∧
    (pyvisaInit loc endl true lvl dev).2 ≠ [] := by
  refine ⟨?_, ?_, ?_, ?_⟩
  · intro hl ho
    cases hq : dev.queryRes "*IDN?" <;>
      simp [pyvisaInit, pyvisaQuery, withOpenResource, ho, hl, hq, Except.map]
  · intro hl
    cases ho : dev.openOk <;> cases hq : dev.queryRes "*IDN?" <;>
      simp [pyvisaInit, pyvisaQuery, withOpenResource, ho, hl, hq, Except.map]
  · intro hl
    simp [pyvisaInit, Nat.not_le.mpr hl]
  · cases ho : dev.openOk <;> cases hq : dev.queryRes "*IDN?" <;>
      simp [pyvisaInit, pyvisaQuery, withOpenResource, ho, hq, Except.map]

/-- Claim C9 witness: at level DEBUG the unchecked constructor queries a concrete
device; at level INFO it does nothing observable. -/
theorem pyvisa_init_debug_level_witness :
    Event.devQuery "*IDN?" ∈ (pyvisaInit "L" "" false 10 devAllOk).2 ∧
    pyvisaInit "L" "" false 20 devAllOk =
      (Except.ok { endline := "", resource_location := "L", loggerLevel := 20 }, []) :=
  ⟨(pyvisa_init_debug_level "L" "" 10 devAllOk).1 (by decide) rfl,
   (pyvisa_init_debug_level "L" "" 20 devAllOk).2.2.1 (by decide)⟩

/-- Claim C5: an attribute assignment on a guarded instance succeeds exactly when
the name is already visible on the instance or is allow-listed — the new
value then being what the next read returns — and otherwise raises a
TypeError whose message names the offending attribute; the rule holds at
every state of the instance. -/
theorem attribute_guard_correct (g : GuardedInstance) (n : String) (v : PyValue) :
    (hasattrI g n = true ∨ inAllowList g n = true →
      ∃ g2, setattrG g n v = Except.ok g2 ∧ getattrG g2 n = some v) ∧
    (hasattrI g n = false → inAllowList g n = false →
      setattrG g n v =
        Except.error (PyError.typeError ("There is no such attribute \x27" ++ n ++ "\x27"))) := by
  constructor
  · intro h
    have hc : canSet g n = true := by
      cases h with
      | inl h => simp [canSet, h]
      | inr h => simp [canSet, h]
    refine ⟨{ g with instAttrs := (n, v) :: g.instAttrs }, by simp [setattrG, hc], ?_⟩
    simp [getattrG, List.find?]
  · intro h1 h2
    simp [setattrG, canSet, h1, h2]

/-- Concrete guarded instance shaped like a freshly constructed
`VisaDriver`: `logger` already assigned, class attributes present, and the
class allow-list `["logger", "backend"]`. -/
def guardedG0 : GuardedInstance :=
  { instAttrs := [("logger", PyValue.pyint 0)]
    classAttrs := ["_allow_attrs", "write", "ask"]
    allowAttrs := some ["logger", "backend"] }

/-- Claim C5 witness: on a concrete instance an allow-listed assignment succeeds
and is visible on the next read, while an unknown name is rejected with a
TypeError naming it. -/
theorem attribute_guard_correct_witness :
    (∃ g2, setattrG guardedG0 "backend" (PyValue.pyint 7) = Except.ok g2 ∧
      getattrG g2 "backend" = some (PyValue.pyint 7)) ∧
    setattrG guardedG0 "typo" (PyValue.pyint 7) =
      Except.error (PyError.typeError ("There is no such attribute \x27" ++ "typo" ++ "\x27")) :=
  ⟨(attribute_guard_correct guardedG0 "backend" (PyValue.pyint 7)).1 (Or.inr (by decide)),
   (attribute_guard_correct guardedG0 "typo" (PyValue.pyint 7)).2 (by decide) (by decide)⟩

theorem canSet_after_set (g : GuardedInstance) (n m : String) (v : PyValue)
    (g2 : GuardedInstance) (h : setattrG g n v = Except.ok g2) :
    canSet g2 m = ((n == m) || canSet g m) := by
  by_cases hc : canSet g n = true
  · simp [setattrG, hc] at h
    subst h
    simp [canSet, hasattrI, inAllowList, List.any_cons, Bool.or_assoc]
  · simp [setattrG, hc] at h

theorem canSet_applyAssigns (asg : List (String × PyValue)) (g g2 : GuardedInstance)
    (m : String) (h : applyAssigns g asg = Except.ok g2) (hm : canSet g m = true) :
    canSet g2 m = true := by
  induction asg generalizing g with
  | nil =>
      simp [applyAssigns] at h
      subst h
      exact hm
  | cons p rest ih =>
      obtain ⟨n, v⟩ := p
      unfold applyAssigns at h
      cases hs : setattrG g n v with
      | ok g1 =>
          rw [hs] at h
          exact ih g1 h (by rw [canSet_after_set g n m v g1 hs, hm, Bool.or_true])
      | error e =>
          rw [hs] at h
          exact absurd h (by simp)

/-- Claim C10: assignability of a guarded instance grows monotonically — once a
name has been successfully assigned, every later assignment to it succeeds
no matter which further successful assignments intervene, and no name ever
loses its assignability. -/
theorem assignability_monotone (g : GuardedInstance) (n : String) (v : PyValue)
    (g1 g2 : GuardedInstance) (asg : List (String × PyValue))
    (h1 : setattrG g n v = Except.ok g1) (h2 : applyAssigns g1 asg = Except.ok g2) :
    (∀ v2 : PyValue, ∃ g3, setattrG g2 n v2 = Except.ok g3) ∧
    (∀ m : String, canSet g m = true → canSet g2 m = true) := by
  have hn1 : canSet g1 n = true := by
    rw [canSet_after_set g n n v g1 h1]
    simp
  constructor
  · intro v2
    have hn2 := canSet_applyAssigns asg g1 g2 n h2 hn1
    exact ⟨{ g2 with instAttrs := (n, v2) :: g2.instAttrs }, by simp [setattrG, hn2]⟩
  · intro m hm
    refine canSet_applyAssigns asg g1 g2 m h2 ?_
    rw [canSet_after_set g n m v g1 h1, hm, Bool.or_true]

/-- Concrete guarded instance after `logger` has been assigned once on top
of `guardedG0`. -/
def guardedG1 : GuardedInstance :=
  { instAttrs := [("logger", PyValue.pybool true), ("logger", PyValue.pyint 0)]
    classAttrs := ["_allow_attrs", "write", "ask"]
    allowAttrs := some ["logger", "backend"] }

/-- Concrete guarded instance after a further `backend` assignment on top
of `guardedG1`. -/
def guardedG2 : GuardedInstance :=
  { instAttrs := [("backend", PyValue.pyint 1), ("logger", PyValue.pybool true),
      ("logger", PyValue.pyint 0)]
    classAttrs := ["_allow_attrs", "write", "ask"]
    allowAttrs := some ["logger", "backend"] }

/-- Claim C10 witness: after assigning `logger` and then `backend` on a concrete
instance, assigning `logger` again succeeds, and `backend` kept its
assignability. -/
theorem assignability_monotone_witness :
    (∃ g3, setattrG guardedG2 "logger" (PyValue.pyint 5) = Except.ok g3) ∧
    canSet guardedG2 "backend" = true :=
  ⟨(assignability_monotone guardedG0 "logger" (PyValue.pybool true) guardedG1 guardedG2
      [("backend", PyValue.pyint 1)] rfl rfl).1 (PyValue.pyint 5),
   (assignability_monotone guardedG0 "logger" (PyValue.pybool true) guardedG1 guardedG2
      [("backend", PyValue.pyint 1)] rfl rfl).2 "backend" (by decide)⟩

end Driverlib
